import Mathlib

/-!
Shallow embedding of the Aethra worker pipeline
(`src/aethra-backend/src/middleware/serviceAuth.ts`, worker section):
the retry helper, the frame-result aggregator, the HF call wrappers,
the two analysis pipelines and the run controller.

Modelling conventions:
* JS values reachable from JSON are the inductive `Aethra.Json`;
  JS numbers are exact rationals (ℚ); the JS `NaN` produced by numeric
  coercion is `Option ℚ`s `none`.
* Fallible operations return `Except String α`, the `String` being the
  JS error message.
* External effects (HTTP calls, GCS, ffmpeg) are inputs: each one is a
  field of an environment record holding that call's outcome.
* Decimal formatting of JS numbers is abstracted by `renderNum`; no
  claim observes rendered numerals (downstream only tests rendered text
  for the alphabetic substrings "fake", "synthetic", "manipul").
-/

namespace Aethra

/-- JS values reachable from JSON (worker data is JSON-shaped throughout). -/
inductive Json where
  | null
  | bool (b : Bool)
  | num (q : ℚ)
  | str (s : String)
  | arr (elems : List Json)
  | obj (fields : List (String × Json))

/-- JS truthiness for `Json` values (`NaN` cannot occur as a stored `Json`). -/
def truthy : Json → Bool
  | .null => false
  | .bool b => b
  | .num q => decide (q ≠ 0)
  | .str s => decide (s ≠ "")
  | .arr _ => true
  | .obj _ => true

/-- Property access `v.k`: `none` models JS `undefined`. -/
def getField : Json → String → Option Json
  | .obj fields, k => fields.lookup k
  | _, _ => none

/-- Truthiness of a possibly-`undefined` JS value. -/
def truthyOpt : Option Json → Bool
  | none => false
  | some v => truthy v

/-- `Array.isArray`. -/
def isArr : Json → Bool
  | .arr _ => true
  | _ => false

/-- Index `v[0]` on an array; `none` models `undefined`. -/
def jsIndex0 : Json → Option Json
  | .arr elems => elems.head?
  | _ => none

/-- Whether the character list `pat` is a leading run of `text`. -/
def leadingRun : List Char → List Char → Bool
  | [], _ => true
  | _ :: _, [] => false
  | p :: ps, c :: cs => p = c && leadingRun ps cs

/-- Whether `pat` occurs as a contiguous run somewhere in `text`. -/
def hasRun (text pat : List Char) : Bool :=
  if leadingRun pat text then true
  else
    match text with
    | [] => false
    | _ :: rest => hasRun rest pat

/-- JS `String.prototype.includes` (for non-empty search strings). -/
def jsIncludes (s sub : String) : Bool :=
  hasRun s.toList sub.toList

/-- JS `toLowerCase()` (ASCII; the worker's labels and marker words are
ASCII). Implemented over the character list so that concrete
evaluations reduce. -/
def jsToLower (s : String) : String :=
  String.mk (s.toList.map Char.toLower)

/-- JS `s.slice(0, n)` (the worker only slices from 0).  Implemented
over the character list so that concrete evaluations reduce shallowly. -/
def jsSlice0 (s : String) (n : Nat) : String :=
  String.mk (s.toList.take n)

/-- Rendering of a JS number as a string. JS prints doubles in
shortest-roundtrip decimal notation; this model prints the exact
rational. No claim depends on the rendered digits: downstream code only
tests rendered text for the substrings "fake", "synthetic", "manipul",
which no numeral contains. -/
def renderNum (q : ℚ) : String :=
  if q.den = 1 then toString q.num
  else toString q.num ++ "/" ++ toString q.den

mutual

/-- JS `String(v)` / template-literal coercion. -/
def jsToString : Json → String
  | .null => "null"
  | .bool b => if b then "true" else "false"
  | .num q => renderNum q
  | .str s => s
  | .arr elems => String.intercalate "," (jsToStringElems elems)
  | .obj _ => "[object Object]"

/-- `Array.prototype.toString` element rendering: `null` (and JS
`undefined`, absent from `Json`) renders as the empty string. -/
def jsToStringElems : List Json → List String
  | [] => []
  | x :: xs =>
    (match x with
     | .null => ""
     | v => jsToString v) :: jsToStringElems xs

end

/-- Template rendering of a possibly-`undefined` value. -/
def jsToStringU : Option Json → String
  | none => "undefined"
  | some v => jsToString v

/-- The double-quote character. -/
def dq : Char := Char.ofNat 34

/-- The single-quote character. -/
def sq : String := String.singleton (Char.ofNat 39)

/-- The backslash character. -/
def bsl : Char := Char.ofNat 92

/-- `JSON.stringify` escaping of one string character (common cases). -/
def escapeChar (c : Char) : List Char :=
  if c = dq then [bsl, dq]
  else if c = bsl then [bsl, bsl]
  else if c = '\n' then [bsl, 'n']
  else if c = '\t' then [bsl, 't']
  else if c = '\r' then [bsl, 'r']
  else [c]

/-- `JSON.stringify` rendering of a string literal. -/
def quoteString (s : String) : String :=
  String.mk ([dq] ++ (s.toList.map escapeChar).flatten ++ [dq])

mutual

/-- `JSON.stringify` (compact form, no indentation). Total on `Json`:
the throwing cases of the real `JSON.stringify` (cycles, BigInt) cannot
occur for these values, matching the dead `catch` at the aggregator's
fallback-parse branch. -/
def stringify : Json → String
  | .null => "null"
  | .bool b => if b then "true" else "false"
  | .num q => renderNum q
  | .str s => quoteString s
  | .arr elems => "[" ++ String.intercalate "," (stringifyElems elems) ++ "]"
  | .obj fields => "\x7b" ++ String.intercalate "," (stringifyFields fields) ++ "\x7d"

def stringifyElems : List Json → List String
  | [] => []
  | x :: xs => stringify x :: stringifyElems xs

def stringifyFields : List (String × Json) → List String
  | [] => []
  | (k, v) :: rest => (quoteString k ++ ":" ++ stringify v) :: stringifyFields rest

end

/-- ASCII whitespace recognised by the regex class `\s` (the Unicode
space characters JS also accepts are not modelled). -/
def isSpaceJS (c : Char) : Bool :=
  c = ' ' || c = '\t' || c = '\n' || c = '\r' || c.toNat = 11 || c.toNat = 12

/-- Numeric value of a list of decimal digit characters. -/
def digitsVal (ds : List Char) : Nat :=
  ds.foldl (fun acc c => acc * 10 + (c.toNat - 48)) 0

/-- Strip `pat` as a leading run of `cs`, or fail. -/
def stripRun : List Char → List Char → Option (List Char)
  | [], cs => some cs
  | _ :: _, [] => none
  | p :: ps, c :: cs => if c = p then stripRun ps cs else none

/-- Attempt to match the regex `confidence[:=]\s*(\d{1,3})` at the head
of `cs`, returning the numeric value of the (greedy, at most 3 digit)
capture group. -/
def confMatchAt (cs : List Char) : Option Nat :=
  match stripRun "confidence".toList cs with
  | none => none
  | some rest =>
    match rest with
    | [] => none
    | c :: rest2 =>
      if c = ':' || c = '=' then
        let afterWs := rest2.dropWhile isSpaceJS
        let ds := (afterWs.takeWhile Char.isDigit).take 3
        if ds.isEmpty then none else some (digitsVal ds)
      else none

/-- Leftmost match of `t.match(/confidence[:=]\s*(\d{1,3})/)`, as the
numeric value `Number(m[1])` of the capture group. -/
def confSearch : List Char → Option Nat
  | [] => none
  | c :: cs =>
    match confMatchAt (c :: cs) with
    | some n => some n
    | none => confSearch cs

/-- Parse an optional decimal point and digit runs: `(intDigits,
fracDigits, rest)` with at least one digit required overall by the
caller. -/
def splitNumChars (cs : List Char) : List Char × List Char × List Char :=
  let intPart := cs.takeWhile Char.isDigit
  let afterInt := cs.dropWhile Char.isDigit
  match afterInt with
  | c :: rest =>
    if c = '.' then
      (intPart, rest.takeWhile Char.isDigit, rest.dropWhile Char.isDigit)
    else (intPart, [], afterInt)
  | [] => (intPart, [], [])

/-- JS `Number(string)` on a trimmed body (sign already stripped):
decimal digits with optional fraction and optional exponent. Hex,
binary, octal and `Infinity` forms are not modelled (they never arise
here); unparsable input is `NaN` (`none`). -/
def parseNumBody (cs : List Char) : Option ℚ :=
  let (ip, fp, rest) := splitNumChars cs
  if ip.isEmpty && fp.isEmpty then none
  else
    let mantissa : ℚ :=
      (digitsVal ip : ℚ) + (digitsVal fp : ℚ) / ((10 : ℚ) ^ fp.length)
    match rest with
    | [] => some mantissa
    | e :: erest =>
      if e = 'e' || e = 'E' then
        let (esign, edigits) :=
          match erest with
          | s :: ds => if s = '-' then ((-1 : ℤ), ds) else if s = '+' then ((1 : ℤ), ds) else ((1 : ℤ), erest)
          | [] => ((1 : ℤ), ([] : List Char))
        let eds := edigits.takeWhile Char.isDigit
        if eds.isEmpty || edigits.dropWhile Char.isDigit ≠ [] then none
        else
          let k := digitsVal eds
          some (if esign = 1 then mantissa * (10 : ℚ) ^ k else mantissa / (10 : ℚ) ^ k)
      else none

/-- JS `ToNumber` on a string: trim whitespace; empty is `0`; otherwise
an optional sign and a decimal body. -/
def parseJSNumber (s : String) : Option ℚ :=
  let cs := ((s.toList.dropWhile isSpaceJS).reverse.dropWhile isSpaceJS).reverse
  match cs with
  | [] => some 0
  | c :: rest =>
    if c = '-' then (parseNumBody rest).map (fun q => -q)
    else if c = '+' then parseNumBody rest
    else parseNumBody cs

/-- JS `ToNumber` coercion of a `Json` value; `none` is `NaN`.
An array coerces through its `toString`; an object gives `NaN`. -/
def jsToNumber : Json → Option ℚ
  | .null => some 0
  | .bool b => some (if b then 1 else 0)
  | .num q => some q
  | .str s => parseJSNumber s
  | .arr elems => parseJSNumber (jsToString (.arr elems))
  | .obj _ => none

/-- JS `Math.round` on a finite number: half-up, `⌊q + 1/2⌋`. -/
def jsRound (q : ℚ) : ℤ :=
  Rat.floor (q + 1/2)

/-- The label/text substring test of the aggregator:
`includes("fake") || includes("synthetic") || includes("manipul")`
(applied to already-lower-cased text). -/
def fakeWord (t : String) : Bool :=
  jsIncludes t "fake" || jsIncludes t "synthetic" || jsIncludes t "manipul"

/-- The confidence sample pushed by the structured-classifier branch:
`if (best.score) confidences.push(Math.round(best.score * 100))`.
A `none` sample is a `NaN` (non-numeric truthy `score`). -/
def scorePush (best : Json) : List (Option ℚ) :=
  match getField best "score" with
  | some sc =>
    if truthy sc then [(jsToNumber sc).map (fun q => ((jsRound (q * 100) : ℤ) : ℚ))]
    else []
  | none => []

/-- The structured-classifier branch of the aggregator loop body
(`if (fr.classifier && Array.isArray(fr.classifier)) { const best =
fr.classifier[0]; if (best && best.label) { ...; continue; } }`).
`some (votes, samples)` means the branch ran to its `continue`;
`none` means control fell through to the later branches. -/
def classifierBranch (fr : Json) : Option (Nat × List (Option ℚ)) :=
  match getField fr "classifier" with
  | some clf =>
    if truthy clf && isArr clf then
      match jsIndex0 clf with
      | some best =>
        if truthy best then
          match getField best "label" with
          | some lab =>
            if truthy lab then
              let labS := jsToLower (jsToString lab)
              some ((if fakeWord labS then 1 else 0), scorePush best)
            else none
          | none => none
        else none
      | none => none
    else none
  | none => none

/-- Per-entry contribution of the aggregator loop body: the number of
fake votes cast (0 or 1) and the confidence samples pushed for this
entry. The loop body only ever increments `fakeVotes` and appends to
`confidences`, so it is exactly this contribution, accumulated. -/
def frameVote (fr : Json) : Nat × List (Option ℚ) :=
  if !truthy fr then (0, [])
  else
    match classifierBranch fr with
    | some r => r
    | none =>
      match fr with
      | .str s =>
        let t := jsToLower s
        ((if fakeWord t then 1 else 0),
         match confSearch t.toList with
         | some n => [some (n : ℚ)]
         | none => [])
      | _ =>
        let txt := jsToLower (stringify fr)
        ((if fakeWord txt then 1 else 0), [])

/-- The aggregator's `for (const fr of frameResults)` loop, returning
the final `(fakeVotes, confidences)` accumulator. -/
def aggLoop (frameResults : List Json) : Nat × List (Option ℚ) :=
  frameResults.foldl
    (fun acc fr => (acc.1 + (frameVote fr).1, acc.2 ++ (frameVote fr).2))
    (0, [])

/-- `confidences.reduce((a,b)=>a+b,0)`: a `NaN` sample poisons the sum. -/
def sumJ (cs : List (Option ℚ)) : Option ℚ :=
  cs.foldl
    (fun a b =>
      match a, b with
      | some x, some y => some (x + y)
      | _, _ => none)
    (some 0)

/-- `Math.round(confidences.reduce((a,b)=>a+b,0)/confidences.length)`. -/
def roundedAvg (cs : List (Option ℚ)) : Option ℚ :=
  (sumJ cs).map (fun s => ((jsRound (s / (cs.length : ℚ)) : ℤ) : ℚ))

/-- `Math.round(Math.min(100, Math.max(40, ratio * 100 + 40)))`, the
ratio-derived confidence used when no (truthy) average is available. -/
def fallbackConf (ratio : ℚ) : ℚ :=
  ((jsRound (min 100 (max 40 (ratio * 100 + 40))) : ℤ) : ℚ)

/-- `ratio > 0.4 ? "likely_fake" : ratio < 0.1 ? "likely_real" :
"inconclusive"`. -/
def verdictOf (ratio : ℚ) : String :=
  if ratio > 2/5 then "likely_fake"
  else if ratio < 1/10 then "likely_real"
  else "inconclusive"

/-- Result record of `aggregateFrameResults`. `avgConf` mirrors the JS
value: `none` is `null` (no samples), `some none` is `NaN`,
`some (some q)` is the number `q`. -/
structure AggregateVerdict where
  verdict : String
  confidence : ℚ
  ratio : ℚ
  fakeVotes : Nat
  total : Nat
  avgConf : Option (Option ℚ)

/-- `aggregateFrameResults(frameResults)` (worker lines 183-218). -/
def aggregateFrameResults (frameResults : List Json) : AggregateVerdict :=
  let acc := aggLoop frameResults
  let fakeVotes := acc.1
  let confidences := acc.2
  let total : Nat := if frameResults.length = 0 then 1 else frameResults.length
  let ratio : ℚ := (fakeVotes : ℚ) / (total : ℚ)
  let avgConf : Option (Option ℚ) :=
    if confidences.length ≠ 0 then some (roundedAvg confidences) else none
  let verdict := verdictOf ratio
  let confidence : ℚ :=
    match avgConf with
    | some (some q) => if q ≠ 0 then q else fallbackConf ratio
    | _ => fallbackConf ratio
  { verdict := verdict, confidence := confidence, ratio := ratio,
    fakeVotes := fakeVotes, total := total, avgConf := avgConf }

/-! ### Retry executor (worker lines 75-86) -/

/-- One execution of `retry(fn, attempts = 3, baseDelay = 500)`.
`f i` is the outcome of the `i`-th invocation of `fn` (0-indexed); the
first component is the JS outcome, the second the number of invocations
performed.  The JS `lastErr` starts out `undefined`, hence the `Option`
in the error position (`retry` with `attempts = 0` throws `undefined`).
The backoff sleeps (`baseDelay * 2 ** i`) suspend the run but do not
affect the result, so they are not modelled. -/
def retryRun {E A : Type} (f : Nat → Except E A) (i : Nat) :
    Nat → Option E → Except (Option E) A × Nat
  | 0, lastErr => (.error lastErr, 0)
  | n + 1, _ =>
    match f i with
    | .ok v => (.ok v, 1)
    | .error e =>
      let r := retryRun f (i + 1) n (some e)
      (r.1, r.2 + 1)

/-- `retry(fn, attempts = 3, baseDelay = 500)` from the first attempt. -/
def retry {E A : Type} (f : Nat → Except E A) (attempts : Nat := 3) :
    Except (Option E) A × Nat :=
  retryRun f 0 attempts none

/-! ### JSON.parse model -/

/-- JSON whitespace. -/
def isJsonWs (c : Char) : Bool :=
  c = ' ' || c = '\t' || c = '\n' || c = '\r'

/-- Value of a hexadecimal digit. -/
def hexVal (c : Char) : Option Nat :=
  if c.isDigit then some (c.toNat - 48)
  else if 'a' ≤ c && c ≤ 'f' then some (c.toNat - 87)
  else if 'A' ≤ c && c ≤ 'F' then some (c.toNat - 55)
  else none

/-- Body of a JSON string literal (opening quote already consumed),
returning the decoded characters and the remaining input. -/
def parseJStrChars : Nat → List Char → Option (List Char × List Char)
  | 0, _ => none
  | _ + 1, [] => none
  | fuel + 1, c :: rest =>
    if c = dq then some ([], rest)
    else if c = bsl then
      match rest with
      | [] => none
      | e :: rest2 =>
        if e = 'u' then
          match rest2 with
          | h1 :: h2 :: h3 :: h4 :: rest3 =>
            match hexVal h1, hexVal h2, hexVal h3, hexVal h4 with
            | some a, some b, some c2, some d =>
              (parseJStrChars fuel rest3).map
                (fun r => (Char.ofNat (((a * 16 + b) * 16 + c2) * 16 + d) :: r.1, r.2))
            | _, _, _, _ => none
          | _ => none
        else
          let decoded : Option Char :=
            if e = dq then some dq
            else if e = bsl then some bsl
            else if e = '/' then some '/'
            else if e = 'n' then some '\n'
            else if e = 't' then some '\t'
            else if e = 'r' then some '\r'
            else if e = 'b' then some (Char.ofNat 8)
            else if e = 'f' then some (Char.ofNat 12)
            else none
          match decoded with
          | some d => (parseJStrChars fuel rest2).map (fun r => (d :: r.1, r.2))
          | none => none
    else (parseJStrChars fuel rest).map (fun r => (c :: r.1, r.2))

/-- A JSON number literal: optional minus, integer part without leading
zeros, optional fraction, optional exponent. -/
def parseJNumber (cs : List Char) : Option (ℚ × List Char) :=
  let (neg, cs1) :=
    match cs with
    | c :: rest => if c = '-' then (true, rest) else (false, cs)
    | [] => (false, cs)
  let ip := cs1.takeWhile Char.isDigit
  let cs2 := cs1.dropWhile Char.isDigit
  if ip.isEmpty then none
  else if ip.length > 1 && ip.head? = some '0' then none
  else
    let withFrac : Option (List Char × List Char) :=
      match cs2 with
      | c :: rest =>
        if c = '.' then
          let fp := rest.takeWhile Char.isDigit
          if fp.isEmpty then none else some (fp, rest.dropWhile Char.isDigit)
        else some ([], cs2)
      | [] => some ([], cs2)
    match withFrac with
    | none => none
    | some (fp, cs3) =>
      let mantissa : ℚ :=
        (digitsVal ip : ℚ) + (digitsVal fp : ℚ) / ((10 : ℚ) ^ fp.length)
      let mantissa := if neg then -mantissa else mantissa
      match cs3 with
      | e :: erest =>
        if e = 'e' || e = 'E' then
          let (eneg, eds0) :=
            match erest with
            | s :: ds =>
              if s = '-' then (true, ds) else if s = '+' then (false, ds) else (false, erest)
            | [] => (false, erest)
          let eds := eds0.takeWhile Char.isDigit
          if eds.isEmpty then none
          else
            let k := digitsVal eds
            some ((if eneg then mantissa / (10 : ℚ) ^ k else mantissa * (10 : ℚ) ^ k),
                  eds0.dropWhile Char.isDigit)
        else some (mantissa, cs3)
      | [] => some (mantissa, cs3)

/-- JS property assignment `o[k] = v` on an object's field list: an
existing key is overwritten in place, a new key is appended. -/
def setFieldList : List (String × Json) → String → Json → List (String × Json)
  | [], k, v => [(k, v)]
  | (k2, v2) :: rest, k, v =>
    if k2 = k then (k, v) :: rest else (k2, v2) :: setFieldList rest k v

/-- JS property assignment on a value: on anything but an object the
assignment is silently dropped (sloppy-mode JS). -/
def setField : Json → String → Json → Json
  | .obj fields, k, v => .obj (setFieldList fields k v)
  | j, _, _ => j

mutual

/-- A JSON value, recursion bounded by fuel (any fuel larger than the
input length times four is sufficient; theorems only evaluate this on
concrete input). -/
def parseJValue : Nat → List Char → Option (Json × List Char)
  | 0, _ => none
  | fuel + 1, cs =>
    let cs1 := cs.dropWhile isJsonWs
    match cs1 with
    | [] => none
    | c :: rest =>
      if c = Char.ofNat 123 then parseJObjStart fuel rest
      else if c = '[' then parseJArrStart fuel rest
      else if c = dq then
        (parseJStrChars (rest.length + 1) rest).map
          (fun r => (Json.str (String.mk r.1), r.2))
      else if c = 't' then (stripRun "rue".toList rest).map (fun r => (Json.bool true, r))
      else if c = 'f' then (stripRun "alse".toList rest).map (fun r => (Json.bool false, r))
      else if c = 'n' then (stripRun "ull".toList rest).map (fun r => (Json.null, r))
      else (parseJNumber cs1).map (fun r => (Json.num r.1, r.2))

/-- Array elements after `[`. -/
def parseJArrStart : Nat → List Char → Option (Json × List Char)
  | 0, _ => none
  | fuel + 1, cs =>
    let cs1 := cs.dropWhile isJsonWs
    match cs1 with
    | c :: rest => if c = ']' then some (Json.arr [], rest) else parseJArrElems fuel cs1 []
    | [] => none

/-- `value (, value)* ]` with accumulated elements. -/
def parseJArrElems : Nat → List Char → List Json → Option (Json × List Char)
  | 0, _, _ => none
  | fuel + 1, cs, acc =>
    match parseJValue fuel cs with
    | none => none
    | some (v, rest) =>
      let rest1 := rest.dropWhile isJsonWs
      match rest1 with
      | c :: rest2 =>
        if c = ',' then parseJArrElems fuel rest2 (acc ++ [v])
        else if c = ']' then some (Json.arr (acc ++ [v]), rest2)
        else none
      | [] => none

/-- Object members after an opening brace. -/
def parseJObjStart : Nat → List Char → Option (Json × List Char)
  | 0, _ => none
  | fuel + 1, cs =>
    let cs1 := cs.dropWhile isJsonWs
    match cs1 with
    | c :: rest =>
      if c = Char.ofNat 125 then some (Json.obj [], rest) else parseJObjMembers fuel cs1 []
    | [] => none

/-- `"key" : value (, "key" : value)*` followed by a closing brace.
A duplicate key overwrites the earlier value in place, as JS property
assignment does. -/
def parseJObjMembers : Nat → List Char → List (String × Json) → Option (Json × List Char)
  | 0, _, _ => none
  | fuel + 1, cs, acc =>
    let cs1 := cs.dropWhile isJsonWs
    match cs1 with
    | c :: rest =>
      if c = dq then
        match parseJStrChars (rest.length + 1) rest with
        | none => none
        | some (kchars, rest2) =>
          let rest3 := rest2.dropWhile isJsonWs
          match rest3 with
          | c2 :: rest4 =>
            if c2 = ':' then
              match parseJValue fuel rest4 with
              | none => none
              | some (v, rest5) =>
                let acc2 := setFieldList acc (String.mk kchars) v
                let rest6 := rest5.dropWhile isJsonWs
                match rest6 with
                | c3 :: rest7 =>
                  if c3 = ',' then parseJObjMembers fuel rest7 acc2
                  else if c3 = Char.ofNat 125 then some (Json.obj acc2, rest7)
                  else none
                | [] => none
            else none
          | [] => none
      else none
    | [] => none

end

/-- `JSON.parse`: a single value with no trailing input (modulo
whitespace). -/
def jsonParse (s : String) : Option Json :=
  match parseJValue ((s.length + 1) * 4) s.toList with
  | some (v, rest) => if rest.dropWhile isJsonWs = [] then some v else none
  | none => none

/-! ### Report record and worker environment -/

/-- The fields of a fetched report that the worker reads. -/
structure Report where
  status : String
  type : String
  fileUrl : Option String
  metadata : Json

/-- Truthiness of `report.fileUrl` (`undefined` or the empty string are
falsy). -/
def fileUrlTruthy (r : Report) : Bool :=
  match r.fileUrl with
  | some u => decide (u ≠ "")
  | none => false

/-- Outcomes of the worker's external effects for one invocation.  Each
field is the result the corresponding (already retried) call would
deliver; an `Except.error` is the rejection the worker observes after
the retry budget is exhausted. -/
structure WorkerEnv where
  reportId : String
  /-- `getReport(reportId)`: `ok none` models a falsy response body. -/
  getReport : Except String (Option Report)
  /-- `downloadFromGCS(report.fileUrl)` (including invalid-URI errors). -/
  download : Except String String
  /-- `extractFrames(localVideo, framesDir, FPS)` (an `error` covers a
  non-zero ffmpeg exit). -/
  extract : Except String (List String)
  /-- `MAX_FRAMES` (default 8, environment-configurable). -/
  maxFrames : Nat
  /-- `callHFFrameClassifier(framePath)` per frame path. -/
  classify : String → Except String Json
  /-- Outcome of the multimodal form-data POST inside
  `callHFReportModel` (the `try` block's HTTP call). -/
  mmHttp : Except String Json
  /-- Outcome of the text-model POST inside `callHFTextModel`, as a
  function of the prompt. -/
  textHttp : String → Except String Json
  /-- `uploadToGCS` of the deepfake diagnostic bundle. -/
  uploadDiag : Except String String
  /-- `uploadToGCS` of the raw audit model output. -/
  uploadAuditRaw : Except String String
  /-- `patchReport(reportId, result, status)` outcomes. -/
  patchOutcome : Json → String → Except String Json

/-! ### Inference client (worker lines 138-180) -/

/-- Response-shape extraction shared by the HF wrappers: a string is
returned as is; an array whose truthy head has a truthy
`generated_text` or `text` field yields that field. -/
def extractedField (d0 : Json) : Json :=
  let gen := getField d0 "generated_text"
  if truthyOpt gen then gen.getD Json.null else (getField d0 "text").getD Json.null

/-- Whether the array-of-generations shape applies:
`Array.isArray(data) && data[0] && (data[0].generated_text || data[0].text)`. -/
def genShape (d0 : Json) : Bool :=
  truthy d0 &&
    (truthyOpt (getField d0 "generated_text") || truthyOpt (getField d0 "text"))

/-- `callHFTextModel(prompt)` applied to a received response body
(lines 143-146): string as is, first generation field of an array
shape, otherwise `JSON.stringify(data)`.  The extracted field is
coerced to the string the callers consume it as. -/
def textResponseToString (data : Json) : String :=
  match data with
  | .str s => s
  | .arr (d0 :: rest) =>
    if genShape d0 then jsToString (extractedField d0)
    else stringify (Json.arr (d0 :: rest))
  | _ => stringify data

/-- `callHFTextModel(prompt, model)`: the retried POST followed by
response extraction. -/
def callHFTextModel (env : WorkerEnv) (prompt : String) : Except String String :=
  (env.textHttp prompt).map textResponseToString

/-- Success-path extraction of `callHFReportModel` (lines 167-170):
unlike the text wrapper it returns the raw value (`string | object`). -/
def reportResponseValue (data : Json) : Json :=
  match data with
  | .str s => .str s
  | .arr (d0 :: rest) =>
    if genShape d0 then extractedField d0 else Json.arr (d0 :: rest)
  | _ => data

/-- The fallback prompt prefix of `callHFReportModel` (lines 173-177). -/
def reportFallbackInstruction : String :=
  "You are an expert forensic analyst. Using the evidence below (labels & confidences), produce JSON: summary, type=" ++
    sq ++ "deepfake" ++ sq ++ ", verdict(" ++ sq ++ "likely_fake" ++ sq ++ "|" ++
    sq ++ "likely_real" ++ sq ++ "|" ++ sq ++ "inconclusive" ++ sq ++
    "), confidence(0-100), evidence[], recommendations[]."

/-- The augmented prompt the fallback sends to the text model. -/
def augmentReportPrompt (promptText : String) : String :=
  String.intercalate "\n\n" [reportFallbackInstruction, "", promptText]

/-- `callHFReportModel(promptText, imagePaths, model)` (lines 158-180):
`mmHttp` is the outcome of the multimodal attempt; on any failure of
that attempt the call falls back to the text model with the augmented
prompt, never surfacing the multimodal error. -/
def callHFReportModel (mmHttp : Except String Json)
    (textModel : String → Except String String) (promptText : String) :
    Except String Json :=
  match mmHttp with
  | .ok data => .ok (reportResponseValue data)
  | .error _ => (textModel (augmentReportPrompt promptText)).map Json.str

/-! ### Deepfake pipeline (worker lines 221-315) -/

/-- Default model names (environment-overridable). -/
def HF_AUDIT_MODEL : String := "LLAVA-1.6-Mistral-7B"

def HF_FRAME_CLASSIFIER_MODEL : String := "prithivMLmods/deepfake-detector-model-v1"

def HF_REPORT_MODEL : String := "Salesforce/blip2-opt-2.7b"

/-- `path.basename`. -/
def basename (p : String) : String :=
  (p.splitOn "/").getLastD p

/-- `a || b` on a possibly-`undefined` left operand. -/
def jsOr (a : Option Json) (b : Json) : Json :=
  if truthyOpt a then a.getD Json.null else b

/-- `(err && err.message) || "classifier error"` with errors modelled
by their message. -/
def classifierErrMessage (e : String) : String :=
  if e = "" then "classifier error" else e

/-- `JSON.stringify(v, null, 2)`: the pretty-printing indentation is
abstracted away (compact rendering); the pretty form only ever flows
into prompt text, which no claim observes. -/
def stringifyPretty (j : Json) : String :=
  stringify j

/-- The aggregate record as the JS object fed to `JSON.stringify`
(`NaN` and `null` both stringify as `null`). -/
def aggJson (a : AggregateVerdict) : Json :=
  Json.obj
    [("verdict", Json.str a.verdict), ("confidence", Json.num a.confidence),
     ("ratio", Json.num a.ratio), ("fakeVotes", Json.num a.fakeVotes),
     ("total", Json.num a.total),
     ("avgConf", match a.avgConf with
                 | some (some q) => Json.num q
                 | _ => Json.null)]

/-- `Math.round(toNumber(v) * 100)` rendered for a template literal. -/
def renderRound100 (v : Json) : String :=
  match jsToNumber v with
  | some q => toString (jsRound (q * 100))
  | none => "NaN"

/-- One line of `sampleSummaries` (lines 242-251). -/
def frameSummary (fr : Json) : String :=
  if truthyOpt (getField fr "error") then
    jsToStringU (getField fr "frame") ++ ": ERROR(" ++
      jsToStringU (getField fr "error") ++ ")"
  else
    match getField fr "classifier" with
    | some clf =>
      if truthy clf && isArr clf then
        let label : String :=
          match jsIndex0 clf with
          | some best =>
            if truthy best then
              match getField best "label" with
              | some l => if truthy l then jsToString l else stringify best
              | none => stringify best
            else stringify clf
          | none => stringify clf
        let score : String :=
          match jsIndex0 clf with
          | some best =>
            if truthy best && truthyOpt (getField best "score") then
              "score=" ++ renderRound100 ((getField best "score").getD Json.null)
            else ""
          | none => ""
        jsToStringU (getField fr "frame") ++ ": " ++ label ++ " " ++ score
      else jsToStringU (getField fr "frame") ++ ": " ++ jsSlice0 (stringify fr) 200
    | none => jsToStringU (getField fr "frame") ++ ": " ++ jsSlice0 (stringify fr) 200

/-- The instruction head of the deepfake synthesis prompt (line 254). -/
def deepfakePromptInstruction : String :=
  "You are an expert forensic analyst. Using the evidence below (frame classifier labels and confidences), produce JSON with fields: summary, type=" ++
    sq ++ "deepfake" ++ sq ++ ", verdict(one of " ++ sq ++ "likely_fake" ++ sq ++
    "," ++ sq ++ "likely_real" ++ sq ++ "," ++ sq ++ "inconclusive" ++ sq ++
    "), confidence(0-100), evidence[], recommendations[]."

/-- The closing instruction of the deepfake synthesis prompt (line 262). -/
def deepfakePromptClosing : String :=
  "Make evidence[] an array of short strings citing frame filenames and reasons. Keep JSON valid. If unsure, set verdict to " ++
    sq ++ "inconclusive" ++ sq ++ "."

/-- `reportPromptText` (lines 253-263). -/
def reportPromptText (agg : AggregateVerdict) (sampleSummaries : List String) : String :=
  String.intercalate "\n\n"
    [deepfakePromptInstruction, "",
     "AGGREGATED STATS:", stringifyPretty (aggJson agg), "",
     "SAMPLE FRAME RESULTS (frame: label [score]):",
     String.intercalate "\n" sampleSummaries, "",
     deepfakePromptClosing]

/-- `typeof v === "object"` (`null`, arrays and objects). -/
def typeofIsObject : Json → Bool
  | .obj _ => true
  | .arr _ => true
  | .null => true
  | _ => false

/-- `Math.round((fr.classifier[0].score || 0) * 100)` rendered. -/
def scorePct (c0 : Json) : String :=
  renderRound100 (jsOr (getField c0 "score") (Json.num 0))

/-- One entry of `frame_annotations` (lines 305-308).  A missing
`frame` property is rendered as `null` (what `JSON.stringify` of the
persisted result would show). -/
def frameAnnotation (fr : Json) : Json :=
  let reason : String :=
    if truthyOpt (getField fr "error") then
      "error: " ++ jsToStringU (getField fr "error")
    else
      match getField fr "classifier" with
      | some clf =>
        match jsIndex0 clf with
        | some c0 =>
          if truthy clf && truthy c0 then
            jsToStringU (getField c0 "label") ++ " (" ++ scorePct c0 ++ "%)"
          else jsSlice0 (stringify fr) 200
        | none => jsSlice0 (stringify fr) 200
      | none => jsSlice0 (stringify fr) 200
  Json.obj
    [("frame", (getField fr "frame").getD Json.null),
     ("reason", Json.str reason), ("heatmap", Json.null)]

/-- `notes` string of the deepfake result (line 309). -/
def deepfakeNotes (sampled : Nat) : String :=
  "sampled=" ++ toString sampled ++ ", frameClassifier=" ++
    HF_FRAME_CLASSIFIER_MODEL ++ ", reportModel=" ++ HF_REPORT_MODEL

/-- `analyzeDeepfake(report, runId, toCleanup)` (lines 221-315).  The
local diagnostic write and the cleanup bookkeeping have no observable
effect on the result and are not modelled; `uploadDiag` carries the
diagnostic upload's outcome. -/
def analyzeDeepfake (report : Report) (env : WorkerEnv) : Except String Json :=
  if !fileUrlTruthy report then .error "report.fileUrl missing"
  else match env.download with
  | .error e => .error e
  | .ok _localVideo =>
  match env.extract with
  | .error e => .error e
  | .ok frames =>
  if frames.length = 0 then .error "No frames extracted"
  else
  let sample := frames.take env.maxFrames
  let frameResults := sample.map (fun f =>
    match env.classify f with
    | .ok clfRaw =>
      Json.obj [("frame", Json.str (basename f)), ("classifier", clfRaw)]
    | .error e =>
      Json.obj [("frame", Json.str (basename f)),
                ("error", Json.str (classifierErrMessage e))])
  let agg := aggregateFrameResults frameResults
  let sampleSummaries := frameResults.map frameSummary
  let prompt := reportPromptText agg sampleSummaries
  match (match callHFReportModel env.mmHttp (callHFTextModel env) prompt with
         | .ok v => .ok v
         | .error _ => (callHFTextModel env prompt).map Json.str : Except String Json) with
  | .error e => .error e
  | .ok rawReport =>
  let parsedReport : Json :=
    if typeofIsObject rawReport then rawReport
    else
      match (match rawReport with
             | .str s => jsonParse s
             | v => jsonParse (stringify v)) with
      | some p => p
      | none =>
        let textSummary := match rawReport with
                           | .str s => s
                           | v => stringify v
        Json.obj
          [("summary", Json.str (jsSlice0 textSummary 1000)),
           ("type", Json.str "deepfake"),
           ("verdict", Json.str agg.verdict),
           ("confidence", Json.num agg.confidence),
           ("evidence", Json.arr ((sampleSummaries.take 6).map Json.str)),
           ("recommendations", Json.arr [])]
  match env.uploadDiag with
  | .error e => .error e
  | .ok artifactUri =>
  .ok (Json.obj
    [("summary",
      jsOr (getField parsedReport "summary")
        (Json.str ("Deepfake analysis: " ++ agg.verdict ++ " (conf " ++
          renderNum agg.confidence ++ ")"))),
     ("type", Json.str "deepfake"),
     ("verdict", jsOr (getField parsedReport "verdict") (Json.str agg.verdict)),
     ("confidence", jsOr (getField parsedReport "confidence") (Json.num agg.confidence)),
     ("traces", Json.obj
       [("temporal_inconsistency", Json.num agg.ratio),
        ("facial_artifact_score", Json.num agg.ratio),
        ("metadata_mismatch_score", Json.num 0)]),
     ("frame_annotations", Json.arr ((frameResults.take 3).map frameAnnotation)),
     ("notes", Json.str (deepfakeNotes sample.length)),
     ("artifacts", Json.obj [("diagnostic", Json.str artifactUri)]),
     ("raw", Json.obj [("parsedReport", parsedReport)])])

/-! ### Audit pipeline (worker lines 317-344) -/

/-- The audit prompt instruction (line 320). -/
def auditPromptInstruction : String :=
  "You are an ethics auditor. Given the model metadata below produce JSON with fields: summary,type=" ++
    sq ++ "audit" ++ sq ++
    ",scores\x7btransparency,fairness,privacy,robustness\x7d,metrics,flagged_issues[],recommendations[]. Output JSON only."

/-- `parsed.artifacts = parsed.artifacts || {}; parsed.artifacts.raw_output
= art` (lines 341-342); on a non-object `parsed` sloppy-mode JS drops
the assignments. -/
def attachRawOutput (parsed : Json) (art : String) : Json :=
  match parsed with
  | .obj fields =>
    let artifacts := jsOr (List.lookup "artifacts" fields) (Json.obj [])
    Json.obj (setFieldList fields "artifacts"
      (setField artifacts "raw_output" (Json.str art)))
  | v => v

/-- `analyzeAudit(report, runId, toCleanup)` (lines 317-344).  The local
raw-output write is not modelled; `uploadAuditRaw` carries the
diagnostic upload's outcome. -/
def analyzeAudit (report : Report) (env : WorkerEnv) : Except String Json :=
  let metadata := if truthy report.metadata then report.metadata else Json.obj []
  let prompt := String.intercalate "\n\n"
    [auditPromptInstruction, "MODEL METADATA:", stringifyPretty metadata]
  match callHFTextModel env prompt with
  | .error e => .error e
  | .ok raw =>
  let parsed : Json :=
    match jsonParse raw with
    | some p => p
    | none =>
      Json.obj
        [("summary", Json.str (jsSlice0 raw 1000)),
         ("type", Json.str "audit"),
         ("scores", Json.obj
           [("transparency", Json.num 60), ("fairness", Json.num 50),
            ("privacy", Json.num 60), ("robustness", Json.num 55)]),
         ("metrics", Json.obj []),
         ("flagged_issues", Json.arr []),
         ("recommendations", Json.arr [])]
  match env.uploadAuditRaw with
  | .error e => .error e
  | .ok art => .ok (attachRawOutput parsed art)

/-! ### Run controller (worker lines 347-375) -/

/-- Observable Report Store interaction of one run: whether an analysis
pipeline was entered, and the `patchReport` calls issued, in order,
each as `(result payload, status)`. -/
structure RunTrace where
  pipelineRan : Bool
  patches : List (Json × String)

/-- The failure payload `{summary: "worker failed", notes: (err &&
err.message) || String(err)}`; errors are modelled by their (non-empty)
message. -/
def failPayload (e : String) : Json :=
  Json.obj [("summary", Json.str "worker failed"), ("notes", Json.str e)]

/-- `run(reportId)` (lines 347-375).  Returns the promise outcome
(an `error` is a rejection of `run` itself, caught only by the CLI
entry) together with the observable trace.  The `finally` cleanup of
temporary files has no observable effect on the store and is not
modelled.  A failing `patchReport` in the catch handler is logged and
swallowed; the attempt is still recorded in the trace. -/
def run (env : WorkerEnv) : Except String Unit × RunTrace :=
  match env.getReport with
  | .error e => (.error e, ⟨false, []⟩)
  | .ok none => (.error ("Report not found: " ++ env.reportId), ⟨false, []⟩)
  | .ok (some report) =>
    if report.status = "completed" then (.ok (), ⟨false, []⟩)
    else
      let dispatched : Bool × Except String Json :=
        if report.type = "deepfake" then (true, analyzeDeepfake report env)
        else if report.type = "audit" then (true, analyzeAudit report env)
        else (false, .error ("Unknown report type: " ++ report.type))
      match dispatched.2 with
      | .ok result =>
        match env.patchOutcome result "completed" with
        | .ok _ => (.ok (), ⟨dispatched.1, [(result, "completed")]⟩)
        | .error e2 =>
          (.ok (), ⟨dispatched.1, [(result, "completed"), (failPayload e2, "failed")]⟩)
      | .error e => (.ok (), ⟨dispatched.1, [(failPayload e, "failed")]⟩)

/-! ### Sample inputs used by witnesses and counterexamples -/

/-- The spec's three-frame scenario: two frames classified
`{label:"fake", score:0.9}`, one `{label:"real", score:0.8}`. -/
def exThreeFrames : List Json :=
  [Json.obj [("frame", Json.str "frame-000001.jpg"),
     ("classifier", Json.arr [Json.obj [("label", Json.str "fake"), ("score", Json.num (9/10))]])],
   Json.obj [("frame", Json.str "frame-000002.jpg"),
     ("classifier", Json.arr [Json.obj [("label", Json.str "fake"), ("score", Json.num (9/10))]])],
   Json.obj [("frame", Json.str "frame-000003.jpg"),
     ("classifier", Json.arr [Json.obj [("label", Json.str "real"), ("score", Json.num (8/10))]])]]

/-- A report already in `completed` status. -/
def completedReportEx : Report :=
  ⟨"completed", "audit", none, Json.obj []⟩

/-- An environment whose report fetch yields [[completedReportEx]]. -/
def completedEnvEx : WorkerEnv :=
  { reportId := "r-completed"
    getReport := .ok (some completedReportEx)
    download := .error "unused"
    extract := .error "unused"
    maxFrames := 8
    classify := fun _ => .error "unused"
    mmHttp := .error "unused"
    textHttp := fun _ => .ok (Json.str "not json")
    uploadDiag := .error "unused"
    uploadAuditRaw := .ok "gs://bucket/diagnostics/audit-raw-r.txt"
    patchOutcome := fun _ _ => .ok Json.null }

/-- An audit report in `failed` status. -/
def failedReportEx : Report :=
  ⟨"failed", "audit", none, Json.obj [("license", Json.str "MIT")]⟩

/-- An environment whose report fetch yields [[failedReportEx]] and
whose remaining effects succeed. -/
def failedEnvEx : WorkerEnv :=
  { completedEnvEx with
    reportId := "r-failed"
    getReport := .ok (some failedReportEx) }

/-- A pending deepfake report. -/
def pendingDeepfakeReportEx : Report :=
  ⟨"pending", "deepfake", some "gs://bucket/videos/v.mp4", Json.null⟩

/-- An environment for [[pendingDeepfakeReportEx]] in which the download
succeeds and frame extraction yields zero frames. -/
def zeroFramesEnvEx : WorkerEnv :=
  { completedEnvEx with
    reportId := "r-zero-frames"
    getReport := .ok (some pendingDeepfakeReportEx)
    download := .ok "tmp/v.mp4"
    extract := .ok [] }

/-! ### Helper lemmas -/

theorem agg_verdict_eq (frs : List Json) :
    (aggregateFrameResults frs).verdict = verdictOf ((aggregateFrameResults frs).ratio) := rfl

theorem agg_total_eq (frs : List Json) :
    (aggregateFrameResults frs).total = if frs.length = 0 then 1 else frs.length := rfl

theorem agg_fakeVotes_eq (frs : List Json) :
    (aggregateFrameResults frs).fakeVotes = (aggLoop frs).1 := rfl

theorem agg_ratio_eq (frs : List Json) :
    (aggregateFrameResults frs).ratio =
      ((aggLoop frs).1 : ℚ) / ((aggregateFrameResults frs).total : ℚ) := rfl

theorem agg_avgConf_eq (frs : List Json) :
    (aggregateFrameResults frs).avgConf =
      (if (aggLoop frs).2.length ≠ 0 then some (roundedAvg (aggLoop frs).2) else none) := rfl

theorem agg_confidence_eq (frs : List Json) :
    (aggregateFrameResults frs).confidence =
      (match (aggregateFrameResults frs).avgConf with
       | some (some q) =>
         if q ≠ 0 then q else fallbackConf ((aggregateFrameResults frs).ratio)
       | _ => fallbackConf ((aggregateFrameResults frs).ratio)) := rfl

theorem jsRound_eq_floor (q : ℚ) : jsRound q = ⌊q + 1/2⌋ := rfl

theorem le_jsRound {n : ℤ} {q : ℚ} (h : (n : ℚ) ≤ q) : n ≤ jsRound q := by
  rw [jsRound_eq_floor]
  exact Int.le_floor.2 (by linarith)

theorem jsRound_le {n : ℤ} {q : ℚ} (h : q ≤ (n : ℚ)) : jsRound q ≤ n := by
  rw [jsRound_eq_floor]
  have hlt : ⌊q + 1/2⌋ < n + 1 := Int.floor_lt.2 (by push_cast; linarith)
  omega

theorem fallbackConf_bounds (r : ℚ) : 40 ≤ fallbackConf r ∧ fallbackConf r ≤ 100 := by
  unfold fallbackConf
  constructor
  · have h40 : ((40 : ℤ) : ℚ) ≤ min 100 (max 40 (r * 100 + 40)) :=
      le_min (by norm_num) (by push_cast; exact le_max_left _ _)
    exact_mod_cast le_jsRound h40
  · have h100 : min 100 (max 40 (r * 100 + 40)) ≤ ((100 : ℤ) : ℚ) := by
      push_cast; exact min_le_left _ _
    exact_mod_cast jsRound_le h100

theorem classifierBranch_fst_le_one (fr : Json) :
    ∀ r, classifierBranch fr = some r → r.1 ≤ 1 := by
  intro r h
  unfold classifierBranch at h
  repeat' split at h
  all_goals simp at h
  subst h
  split <;> simp

theorem frameVote_fst_le_one (fr : Json) : (frameVote fr).1 ≤ 1 := by
  unfold frameVote
  split
  · exact Nat.zero_le 1
  · split
    · exact classifierBranch_fst_le_one fr _ (by assumption)
    · split
      · simp only []
        split <;> simp
      · simp only []
        split <;> simp

theorem aggLoop_foldl_fst_le (frs : List Json) :
    ∀ (v : Nat) (cs : List (Option ℚ)),
      (frs.foldl
        (fun acc fr => (acc.1 + (frameVote fr).1, acc.2 ++ (frameVote fr).2))
        (v, cs)).1 ≤ v + frs.length := by
  induction frs with
  | nil => intro v cs; simp
  | cons a t ih =>
    intro v cs
    simp only [List.foldl_cons, List.length_cons]
    have h1 := ih (v + (frameVote a).1) (cs ++ (frameVote a).2)
    have h2 := frameVote_fst_le_one a
    omega

theorem aggLoop_fst_le (frs : List Json) : (aggLoop frs).1 ≤ frs.length := by
  simpa using aggLoop_foldl_fst_le frs 0 []

theorem sumJ_foldl_bounds :
    ∀ (cs : List (Option ℚ)) (x : ℚ),
      (∀ y ∈ cs, ∃ q : ℚ, y = some q ∧ 0 ≤ q ∧ q ≤ 100) →
      ∃ S, cs.foldl
          (fun a b =>
            match a, b with
            | some x2, some y2 => some (x2 + y2)
            | _, _ => none)
          (some x) = some S ∧ x ≤ S ∧ S ≤ x + 100 * cs.length := by
  intro cs
  induction cs with
  | nil => intro x _; exact ⟨x, rfl, le_refl x, by simp⟩
  | cons b t ih =>
    intro x h
    obtain ⟨q, hb, hq0, hq1⟩ := h b (List.mem_cons_self b t)
    subst hb
    obtain ⟨S, hS, hxS, hSx⟩ := ih (x + q) (fun y hy => h y (List.mem_cons_of_mem _ hy))
    refine ⟨S, hS, by linarith, ?_⟩
    simp only [List.length_cons] at *
    push_cast at *
    linarith

theorem sumJ_bounds (cs : List (Option ℚ))
    (h : ∀ y ∈ cs, ∃ q : ℚ, y = some q ∧ 0 ≤ q ∧ q ≤ 100) :
    ∃ S, sumJ cs = some S ∧ 0 ≤ S ∧ S ≤ 100 * cs.length := by
  obtain ⟨S, h1, h2, h3⟩ := sumJ_foldl_bounds cs 0 h
  exact ⟨S, h1, h2, by linarith⟩

theorem roundedAvg_bounds (cs : List (Option ℚ)) (hne : cs ≠ [])
    (h : ∀ y ∈ cs, ∃ q : ℚ, y = some q ∧ 0 ≤ q ∧ q ≤ 100) :
    ∃ q : ℚ, roundedAvg cs = some q ∧ 0 ≤ q ∧ q ≤ 100 := by
  obtain ⟨S, hS, hS0, hS1⟩ := sumJ_bounds cs h
  have hlen : (0 : ℚ) < (cs.length : ℚ) := by
    have hne2 : cs.length ≠ 0 := by simpa [List.length_eq_zero] using hne
    exact_mod_cast Nat.pos_of_ne_zero hne2
  refine ⟨((jsRound (S / (cs.length : ℚ)) : ℤ) : ℚ), by simp [roundedAvg, hS], ?_, ?_⟩
  · have hd : (0 : ℚ) ≤ S / (cs.length : ℚ) := div_nonneg hS0 hlen.le
    exact_mod_cast le_jsRound (n := 0) (by exact_mod_cast hd)
  · have hd : S / (cs.length : ℚ) ≤ (100 : ℚ) := (div_le_iff₀ hlen).2 (by linarith)
    exact_mod_cast jsRound_le (n := 100) (by exact_mod_cast hd)

/-! ### Claims -/

section RatEval

/- Batteries marks the `Rat` arithmetic operations `@[irreducible]`;
within this section they are restored to normal reducibility so that
the concrete aggregator evaluations discharge by `decide`. -/
attribute [local semireducible] Rat.add Rat.sub Rat.mul Rat.inv Rat.ofScientific

/-- Claim C1: for every non-empty sequence of frame results the verdict
is determined solely by the fake-vote ratio under the strict policy
`ratio > 0.4 → likely_fake`, `ratio < 0.1 → likely_real`, everything
else (the boundary values 0.4 and 0.1 included) `inconclusive`; and on
the spec's three-frame scenario (two "fake" labels, one "real") the
ratio is 2/3 and the verdict `likely_fake`. -/
theorem aggregate_verdict_policy :
    (∀ frs : List Json, frs ≠ [] →
      ((aggregateFrameResults frs).ratio > 2/5 →
        (aggregateFrameResults frs).verdict = "likely_fake") ∧
      ((aggregateFrameResults frs).ratio < 1/10 →
        (aggregateFrameResults frs).verdict = "likely_real") ∧
      (1/10 ≤ (aggregateFrameResults frs).ratio →
        (aggregateFrameResults frs).ratio ≤ 2/5 →
        (aggregateFrameResults frs).verdict = "inconclusive")) ∧
    (aggregateFrameResults exThreeFrames).ratio = 2/3 ∧
    (aggregateFrameResults exThreeFrames).verdict = "likely_fake" := by
  refine ⟨fun frs _ => ?_, ?_, ?_⟩
  · rw [agg_verdict_eq]
    unfold verdictOf
    refine ⟨fun h => if_pos h, fun h => ?_, fun h1 h2 => ?_⟩
    · rw [if_neg (by linarith), if_pos h]
    · rw [if_neg (by linarith), if_neg (by linarith)]
  · decide
  · decide

/-- Witness for C1: the policy applied to the concrete three-frame
scenario, every hypothesis discharged there. -/
theorem aggregate_verdict_policy_witness :
    (aggregateFrameResults exThreeFrames).verdict = "likely_fake" :=
  (aggregate_verdict_policy.1 exThreeFrames (List.cons_ne_nil _ _)).1
    (by decide)

/-- Claim C2: `retry` with `maxAttempts = 3` returns the operation's
result as soon as one of the first three invocations succeeds, invoking
it no further (the invocation count is the index of the first success
plus one), and when all three fail it re-raises the third error itself,
unwrapped. -/
theorem retry_spec {E A : Type} (f : Nat → Except E A) :
    (∀ v : A, f 0 = .ok v → retry f = (.ok v, 1)) ∧
    (∀ (e0 : E) (v : A), f 0 = .error e0 → f 1 = .ok v →
      retry f = (.ok v, 2)) ∧
    (∀ (e0 e1 : E) (v : A), f 0 = .error e0 → f 1 = .error e1 → f 2 = .ok v →
      retry f = (.ok v, 3)) ∧
    (∀ e0 e1 e2 : E, f 0 = .error e0 → f 1 = .error e1 → f 2 = .error e2 →
      retry f = (.error (some e2), 3)) := by
  refine ⟨?_, ?_, ?_, ?_⟩ <;> (intros; simp [retry, retryRun, *])

/-- Witness for C2: an operation failing twice then succeeding returns
the success after 3 invocations; an operation failing three times
raises the third error. -/
theorem retry_spec_witness :
    retry (fun i => if i = 2 then Except.ok 5 else Except.error ("e" ++ toString i)) =
      (.ok 5, 3) ∧
    retry (fun i => (Except.error ("e" ++ toString i) : Except String Nat)) =
      (.error (some "e2"), 3) :=
  ⟨(retry_spec _).2.2.1 "e0" "e1" 5 rfl rfl rfl,
   (retry_spec _).2.2.2 "e0" "e1" "e2" rfl rfl rfl⟩

/-- Claim C9: whenever the multimodal report-model call fails,
`callHFReportModel` returns exactly what the text model yields on the
augmented (structured-JSON instruction) prompt; the result does not
depend on the multimodal error, which is therefore never propagated. -/
theorem report_inference_fallback (e : String)
    (textModel : String → Except String String) (promptText : String) :
    callHFReportModel (Except.error e) textModel promptText =
      (textModel (augmentReportPrompt promptText)).map Json.str := rfl

/-- Claim C10: on the empty frame-result sequence the aggregator does
not fail (the divisor is coerced from 0 to 1): it returns
`fakeVotes = 0`, `ratio = 0`, verdict `likely_real` and confidence 40. -/
theorem aggregate_empty :
    (aggregateFrameResults []).fakeVotes = 0 ∧
    (aggregateFrameResults []).total = 1 ∧
    (aggregateFrameResults []).ratio = 0 ∧
    (aggregateFrameResults []).verdict = "likely_real" ∧
    (aggregateFrameResults []).confidence = 40 := by
  refine ⟨rfl, rfl, ?_, ?_, ?_⟩ <;> decide

/-- Claim C3 (amended): for every non-empty frame-result sequence,
whatever the shape of each entry, the ratio lies in [0,1]
unconditionally; the confidence lies in [0,100] provided every
collected confidence sample lies in [0,100] (an unclamped structured
score or a three-digit text confidence can push it outside, see the
counterexample). -/
theorem aggregate_bounds (frs : List Json) (hne : frs ≠ []) :
    (0 ≤ (aggregateFrameResults frs).ratio ∧ (aggregateFrameResults frs).ratio ≤ 1) ∧
    ((∀ y ∈ (aggLoop frs).2, ∃ q : ℚ, y = some q ∧ 0 ≤ q ∧ q ≤ 100) →
      0 ≤ (aggregateFrameResults frs).confidence ∧
      (aggregateFrameResults frs).confidence ≤ 100) := by
  have hlen0 : frs.length ≠ 0 := by simpa [List.length_eq_zero] using hne
  have htot : (aggregateFrameResults frs).total = frs.length := by
    rw [agg_total_eq, if_neg hlen0]
  have htpos : (0 : ℚ) < ((aggregateFrameResults frs).total : ℚ) := by
    rw [htot]
    exact_mod_cast Nat.pos_of_ne_zero hlen0
  constructor
  · constructor
    · rw [agg_ratio_eq]
      exact div_nonneg (Nat.cast_nonneg _) htpos.le
    · rw [agg_ratio_eq, div_le_one htpos, htot]
      exact_mod_cast aggLoop_fst_le frs
  · intro hs
    have hfb := fallbackConf_bounds ((aggregateFrameResults frs).ratio)
    rw [agg_confidence_eq, agg_avgConf_eq]
    by_cases hl : (aggLoop frs).2.length ≠ 0
    · rw [if_pos hl]
      obtain ⟨q, hq, hq0, hq1⟩ :=
        roundedAvg_bounds (aggLoop frs).2
          (by simpa [Ne, ← List.length_eq_zero] using hl) hs
      rw [hq]
      simp only []
      by_cases hqz : q ≠ 0
      · rw [if_pos hqz]; exact ⟨hq0, hq1⟩
      · rw [if_neg hqz]; exact ⟨by linarith [hfb.1], by linarith [hfb.2]⟩
    · rw [if_neg hl]
      exact ⟨by linarith [hfb.1], by linarith [hfb.2]⟩

/-- Counterexample for C3 as stated: a single free-text frame result
carrying `confidence: 999` (accepted by the loose three-digit regex)
drives the aggregate confidence to 999, outside [0,100]. -/
theorem aggregate_bounds_counterexample :
    (aggregateFrameResults [Json.str "confidence: 999"]).confidence = 999 ∧
    ¬ ((aggregateFrameResults [Json.str "confidence: 999"]).confidence ≤ 100) := by
  constructor <;> decide

/-- Witness for C3: the bounds applied to the three-frame scenario,
whose collected samples are 90, 90 and 80. -/
theorem aggregate_bounds_witness :
    0 ≤ (aggregateFrameResults exThreeFrames).confidence ∧
    (aggregateFrameResults exThreeFrames).confidence ≤ 100 :=
  (aggregate_bounds exThreeFrames (List.cons_ne_nil _ _)).2 (by
    intro y hy
    have hcs : (aggLoop exThreeFrames).2 = [some 90, some 90, some 80] := by
      decide
    rw [hcs] at hy
    simp only [List.mem_cons, List.not_mem_nil, or_false] at hy
    rcases hy with h | h | h
    · exact ⟨90, h, by norm_num, by norm_num⟩
    · exact ⟨90, h, by norm_num, by norm_num⟩
    · exact ⟨80, h, by norm_num, by norm_num⟩)

/-- Claim C4 (amended): the confidence equals the JS-rounded average of
the collected confidence samples whenever at least one sample was
collected and that rounded average is a nonzero number; otherwise —
no samples, a `NaN` average, or an average that rounds to 0 (the `||`
treats 0 as absent) — it equals the rounded ratio-derived estimate
`min(100, max(40, ratio*100+40))`. -/
theorem aggregate_confidence_formula (frs : List Json) :
    (∀ q : ℚ, (aggLoop frs).2 ≠ [] → roundedAvg (aggLoop frs).2 = some q → q ≠ 0 →
      (aggregateFrameResults frs).confidence = q) ∧
    ((aggLoop frs).2 = [] ∨ roundedAvg (aggLoop frs).2 = some 0 ∨
        roundedAvg (aggLoop frs).2 = none →
      (aggregateFrameResults frs).confidence =
        fallbackConf ((aggregateFrameResults frs).ratio)) := by
  constructor
  · intro q hne hq hqz
    rw [agg_confidence_eq, agg_avgConf_eq,
      if_pos (by simpa [Ne, List.length_eq_zero] using hne), hq]
    simp only []
    rw [if_pos hqz]
  · intro hc
    rw [agg_confidence_eq, agg_avgConf_eq]
    rcases hc with hc | hc | hc
    · rw [if_neg (by simp [hc])]
    · by_cases hl : (aggLoop frs).2.length ≠ 0
      · rw [if_pos hl, hc]
        simp only []
        rw [if_neg (by simp)]
      · rw [if_neg hl]
    · by_cases hl : (aggLoop frs).2.length ≠ 0
      · rw [if_pos hl, hc]
      · rw [if_neg hl]

/-- Counterexample for C4 as stated: on the single frame result
`"confidence: 0"` one sample (0) is collected and its average is 0, yet
the confidence is the ratio-derived 40, not that average. -/
theorem aggregate_confidence_counterexample :
    (aggLoop [Json.str "confidence: 0"]).2 = [some 0] ∧
    roundedAvg [some 0] = some 0 ∧
    (aggregateFrameResults [Json.str "confidence: 0"]).confidence = 40 := by
  refine ⟨?_, ?_, ?_⟩ <;> decide

/-- Witness for C4: on the three-frame scenario the samples average to
(90+90+80)/3, rounding to the nonzero 87, which is the confidence. -/
theorem aggregate_confidence_formula_witness :
    (aggregateFrameResults exThreeFrames).confidence = 87 :=
  (aggregate_confidence_formula exThreeFrames).1 87
    (by decide) (by decide) (by norm_num)

end RatEval

/-- Claim C5 (amended): the Run Controller's idempotence guard covers
only `completed`: a report already in `completed` status is not
reprocessed (no pipeline, no Report Store write).  A `failed` report,
by contrast, is reprocessed (see the counterexample). -/
theorem run_completed_guard (env : WorkerEnv) (report : Report)
    (hget : env.getReport = .ok (some report))
    (hst : report.status = "completed") :
    (run env).2.pipelineRan = false ∧ (run env).2.patches = [] := by
  unfold run
  rw [hget]
  simp [hst]

/-- Counterexample for C5 as stated: a report in `failed` status is
fetched, the audit pipeline runs and a (completed-status) Report Store
write is issued — the run does reprocess it. -/
theorem run_reprocesses_failed :
    (run failedEnvEx).2.pipelineRan = true ∧
    (run failedEnvEx).2.patches.length = 1 ∧
    ((run failedEnvEx).2.patches.map Prod.snd) = ["completed"] ∧
    (run failedEnvEx).1 = .ok () :=
  ⟨rfl, rfl, rfl, rfl⟩

/-- Witness for C5: the amended guard applied to a concrete completed
report. -/
theorem run_completed_guard_witness :
    (run completedEnvEx).2.pipelineRan = false ∧
    (run completedEnvEx).2.patches = [] :=
  run_completed_guard completedEnvEx completedReportEx rfl rfl

/-- Claim C6: invoking the Run Controller on a report whose status is
`completed` terminates successfully with zero Report Store writes and
no pipeline execution. -/
theorem run_completed_no_writes (env : WorkerEnv) (report : Report)
    (hget : env.getReport = .ok (some report))
    (hst : report.status = "completed") :
    run env = (.ok (), ⟨false, []⟩) := by
  unfold run
  rw [hget]
  simp [hst]

/-- Witness for C6: the guard on a concrete completed report. -/
theorem run_completed_no_writes_witness :
    run completedEnvEx = (.ok (), ⟨false, []⟩) :=
  run_completed_no_writes completedEnvEx completedReportEx rfl rfl

/-- Claim C7: a deepfake run whose frame extraction yields zero frames
fails: the pipeline raises `No frames extracted` before aggregating,
and the Run Controller's only Report Store write patches the report to
status `failed` — no verdict is persisted as a completed result. -/
theorem deepfake_zero_frames_fails (env : WorkerEnv) (report : Report)
    (u dl : String)
    (hget : env.getReport = .ok (some report))
    (hst : report.status ≠ "completed")
    (hty : report.type = "deepfake")
    (hurl : report.fileUrl = some u) (hu : u ≠ "")
    (hdl : env.download = .ok dl)
    (hex : env.extract = .ok ([] : List String)) :
    analyzeDeepfake report env = .error "No frames extracted" ∧
    (run env).2.pipelineRan = true ∧
    (run env).2.patches = [(failPayload "No frames extracted", "failed")] ∧
    (run env).1 = .ok () := by
  have hft : fileUrlTruthy report = true := by simp [fileUrlTruthy, hurl, hu]
  have hdf : analyzeDeepfake report env = .error "No frames extracted" := by
    unfold analyzeDeepfake
    rw [hft, hdl, hex]
    simp
  refine ⟨hdf, ?_, ?_, ?_⟩ <;>
    · unfold run
      rw [hget]
      simp [hst, hty, hdf]

/-- Witness for C7: a concrete pending deepfake report whose extraction
yields zero frames. -/
theorem deepfake_zero_frames_fails_witness :
    analyzeDeepfake pendingDeepfakeReportEx zeroFramesEnvEx =
        .error "No frames extracted" ∧
    (run zeroFramesEnvEx).2.pipelineRan = true ∧
    (run zeroFramesEnvEx).2.patches =
        [(failPayload "No frames extracted", "failed")] ∧
    (run zeroFramesEnvEx).1 = .ok () :=
  deepfake_zero_frames_fails zeroFramesEnvEx pendingDeepfakeReportEx
    "gs://bucket/videos/v.mp4" "tmp/v.mp4" rfl (by decide) rfl rfl
    (by decide) rfl rfl

/-- The audit scenario report: metadata `{"license":"MIT"}`. -/
def auditScenarioReport : Report :=
  ⟨"pending", "audit", none, Json.obj [("license", Json.str "MIT")]⟩

/-- The audit scenario environment: the text model answers the invalid
JSON string `"not json"`, the raw-output upload yields `art`. -/
def auditScenarioEnv (art : String) : WorkerEnv :=
  { reportId := "r-audit"
    getReport := .ok (some auditScenarioReport)
    download := .error "unused"
    extract := .error "unused"
    maxFrames := 8
    classify := fun _ => .error "unused"
    mmHttp := .error "unused"
    textHttp := fun _ => .ok (Json.str "not json")
    uploadDiag := .error "unused"
    uploadAuditRaw := .ok art
    patchOutcome := fun _ _ => .ok Json.null }

/-- Claim C8: on an audit report with metadata `{"license":"MIT"}`
whose text-model call returns the invalid JSON string `"not json"`, the
audit pipeline does not throw and returns exactly the default-scored
result with `summary = "not json"` plus an `artifacts.raw_output`
reference to the uploaded raw response. -/
theorem audit_not_json_scenario (art : String) :
    analyzeAudit auditScenarioReport (auditScenarioEnv art) =
      .ok (Json.obj
        [("summary", Json.str "not json"),
         ("type", Json.str "audit"),
         ("scores", Json.obj
           [("transparency", Json.num 60), ("fairness", Json.num 50),
            ("privacy", Json.num 60), ("robustness", Json.num 55)]),
         ("metrics", Json.obj []),
         ("flagged_issues", Json.arr []),
         ("recommendations", Json.arr []),
         ("artifacts", Json.obj [("raw_output", Json.str art)])]) := rfl

end Aethra
